import Mathlib

/-!
Shallow embedding of the persistence core of the infinite-canvas repository:
the generic trailing-edge debounce helper with flush (examples/main.ts),
the PersistenceManager session state machine (PersistenceManager.ts), and
the listing/projection logic of IndexedDbStorageService.

Timers are modelled by explicit fire times on a discrete clock (Nat).
The single-threaded event loop is modelled by processing a list of timed
events in order; a pending setTimeout is the optional time at which its
callback is due.  Asynchronous storage calls that may reject are modelled
by an Except-valued outcome supplied as an input to the operation.
-/

/-- Timed events seen by the debounce wrapper produced by the debounce
helper of examples/main.ts: a call of the debounced function (which clears
any pending timeout and arms a new one), or a call of its flush method. -/
inductive DEvent where
  | sched (t : Nat)
  | flush (t : Nat)
deriving Repr, DecidableEq

/-- State of one debounce wrapper: the time at which the armed setTimeout
callback is due (none if no timer is pending), together with the times at
which the wrapped effect fn has been invoked so far, in order. -/
structure DState where
  pending : Option Nat
  fires : List Nat
deriving Repr, DecidableEq

/-- Advance the event loop to time now: a pending timer strictly overdue
at now has already fired, invoking fn at its due time. -/
def expire (now : Nat) (s : DState) : DState :=
  match s.pending with
  | some p => if p < now then { pending := none, fires := s.fires ++ [p] } else s
  | none => s

/-- One event of the debounce wrapper with quiet window w.
A sched call at t clears the pending timeout and arms a new one due at
t + w (clearTimeout; setTimeout(fn, ms)).  A flush call at t clears the
pending timeout and invokes fn synchronously at t (clearTimeout; fn()). -/
def dstep (w : Nat) (s : DState) : DEvent → DState
  | .sched t => let s1 := expire t s; { pending := some (t + w), fires := s1.fires }
  | .flush t => let s1 := expire t s; { pending := none, fires := s1.fires ++ [t] }

/-- Let the event loop run to quiescence after the last event: a still
pending timer fires at its due time. -/
def drain (s : DState) : List Nat :=
  match s.pending with
  | some p => s.fires ++ [p]
  | none => s.fires

/-- Run the debounce wrapper with window w over a time-ordered event list
starting from the initial state (no timer armed, no invocations), then let
any remaining timer fire; the result is the full list of fn invocation
times. -/
def runDebounce (w : Nat) (events : List DEvent) : List Nat :=
  drain (events.foldl (dstep w) { pending := none, fires := [] })

/-- JavaScript string truthiness of a nullable string field: null and the
empty string are falsy. -/
def truthy : Option String → Bool
  | none => false
  | some s => !s.isEmpty

/-- Editor snapshot as held by the PersistenceManager: appState plus
serialized nodes, both opaque to the manager. -/
structure Snapshot (Node AppSt : Type) where
  appState : AppSt
  nodes : List Node
deriving Repr, DecidableEq

/-- Full persisted record (CanvasData of StorageService.ts). -/
structure CanvasData (Node AppSt : Type) where
  id : String
  name : String
  nodes : List Node
  appState : AppSt
  createdAt : Nat
  updatedAt : Nat
deriving Repr, DecidableEq

/-- Listing projection of a record (CanvasMetadata of StorageService.ts):
id, name, createdAt, updatedAt; nodes and appState omitted. -/
structure CanvasMetadata where
  id : String
  name : String
  createdAt : Nat
  updatedAt : Nat
deriving Repr, DecidableEq

/-- Session state of one PersistenceManager instance.  savePending is the
due time of the debouncedSave timer (the hidden timeoutId of its debounce
wrapper); onSaveError records whether an error handler is registered. -/
structure PMState (Node AppSt : Type) where
  canvasId : Option String
  canvasName : String
  createdAt : Nat
  isLoading : Bool
  onSaveError : Bool
  currentSnapshot : Option (Snapshot Node AppSt)
  savePending : Option Nat
deriving Repr, DecidableEq

/-- Debounce window of debouncedSave in PersistenceManager.ts. -/
def debounceWindow : Nat := 1000

/-- Settle delay of the loading lock release in loadCanvas. -/
def settleDelay : Nat := 100

variable {Node AppSt E : Type}

/-- PersistenceManager.onStateChange at time now: returns at once while
isLoading; otherwise, if canvasId is truthy, records the snapshot and
calls debouncedSave(), i.e. re-arms the save timer for now + window. -/
def onStateChange (now : Nat) (snap : Snapshot Node AppSt)
    (s : PMState Node AppSt) : PMState Node AppSt :=
  if s.isLoading then s
  else if truthy s.canvasId then
    { s with currentSnapshot := some snap,
             savePending := some (now + debounceWindow) }
  else s

/-- PersistenceManager.updateSnapshot: stores the snapshot into
currentSnapshot unconditionally, then delegates to onStateChange. -/
def updateSnapshot (now : Nat) (snap : Snapshot Node AppSt)
    (s : PMState Node AppSt) : PMState Node AppSt :=
  onStateChange now snap { s with currentSnapshot := some snap }

/-- Guard of PersistenceManager.save: a write is attempted only when
canvasId is truthy, a currentSnapshot exists and isLoading is false. -/
def canSave (s : PMState Node AppSt) : Bool :=
  truthy s.canvasId && s.currentSnapshot.isSome && !s.isLoading

/-- Upsert by id, the effect of IDBObjectStore.put keyed on id. -/
def upsert (c : CanvasData Node AppSt) :
    List (CanvasData Node AppSt) → List (CanvasData Node AppSt)
  | [] => [c]
  | r :: rs => if r.id = c.id then c :: rs else r :: upsert c rs

/-- Outcome of one run of the save effect: the manager state afterwards,
the store contents afterwards, the record handed to storage.saveCanvas
(none if the guard returned early), and the errors delivered to the
registered error handler during the run. -/
structure SaveResult (Node AppSt E : Type) where
  state : PMState Node AppSt
  store : List (CanvasData Node AppSt)
  wrote : Option (CanvasData Node AppSt)
  handlerCalls : List E
deriving Repr, DecidableEq

/-- PersistenceManager.save at time now.  writeOutcome is the result of
the awaited storage.saveCanvas call (ok, or a rejection carrying e).  The
guard returns without any effect when canvasId is falsy, currentSnapshot
is null or isLoading holds; otherwise the record id, name, nodes,
appState, createdAt (the session value, unchanged), updatedAt = now is
handed to storage.  A rejection is caught locally: the error goes to the
handler when one is registered and is dropped otherwise; the function
always returns normally. -/
def save (now : Nat) (writeOutcome : Except E Unit)
    (s : PMState Node AppSt) (store : List (CanvasData Node AppSt)) :
    SaveResult Node AppSt E :=
  match s.canvasId, s.currentSnapshot with
  | some cid, some snap =>
    if cid.isEmpty || s.isLoading then ⟨s, store, none, []⟩
    else
      let data : CanvasData Node AppSt :=
        ⟨cid, s.canvasName, snap.nodes, snap.appState, s.createdAt, now⟩
      match writeOutcome with
      | .ok _ => ⟨s, upsert data store, some data, []⟩
      | .error e => ⟨s, store, some data, if s.onSaveError then [e] else []⟩
  | _, _ => ⟨s, store, none, []⟩

/-- Outcome of one loadCanvas call: the value returned or error thrown to
the caller, the manager state at the moment of resolution, and the time at
which the finally-scheduled setTimeout will reset isLoading to false. -/
structure LoadResult (Node AppSt E : Type) where
  result : Except E (Option (CanvasData Node AppSt))
  state : PMState Node AppSt
  releaseAt : Nat
deriving Repr

/-- PersistenceManager.loadCanvas resolving at time resolveTime.
readOutcome is the result of the awaited storage.loadCanvas call: a
rejection, null (not found) or a record.  isLoading is set before the
read; on a record, id, name, createdAt and currentSnapshot are overwritten
from it; a rejection is rethrown to the caller with no field mutated.  In
every case the finally block schedules the isLoading reset for
resolveTime + settleDelay. -/
def loadCanvas (resolveTime : Nat)
    (readOutcome : Except E (Option (CanvasData Node AppSt)))
    (s : PMState Node AppSt) : LoadResult Node AppSt E :=
  let s1 := { s with isLoading := true }
  match readOutcome with
  | .error e => ⟨.error e, s1, resolveTime + settleDelay⟩
  | .ok none => ⟨.ok none, s1, resolveTime + settleDelay⟩
  | .ok (some data) =>
    ⟨.ok (some data),
     { s1 with canvasId := some data.id,
               canvasName := data.name,
               createdAt := data.createdAt,
               currentSnapshot := some ⟨data.appState, data.nodes⟩ },
     resolveTime + settleDelay⟩

/-- Callback of the setTimeout scheduled in the finally block of
loadCanvas: resets isLoading. -/
def releaseLoading (s : PMState Node AppSt) : PMState Node AppSt :=
  { s with isLoading := false }

/-- Metadata projection used by IndexedDbStorageService.listCanvases. -/
def toMetadata (c : CanvasData Node AppSt) : CanvasMetadata :=
  ⟨c.id, c.name, c.createdAt, c.updatedAt⟩

/-- Comparator of listCanvases, (a, b) => b.updatedAt - a.updatedAt:
a precedes b when b.updatedAt <= a.updatedAt. -/
def metaDesc (a b : CanvasMetadata) : Prop :=
  b.updatedAt ≤ a.updatedAt

instance : DecidableRel metaDesc := fun a b => Nat.decLe b.updatedAt a.updatedAt

instance : IsTotal CanvasMetadata metaDesc :=
  ⟨fun a b => Nat.le_total b.updatedAt a.updatedAt⟩

instance : IsTrans CanvasMetadata metaDesc :=
  ⟨fun _ _ _ h1 h2 => Nat.le_trans h2 h1⟩

/-- IndexedDbStorageService.listCanvases over the store contents: map
every record to its metadata projection, then sort by updatedAt
descending with a stable sort (Array.prototype.sort is stable). -/
def listCanvases (store : List (CanvasData Node AppSt)) :
    List CanvasMetadata :=
  (store.map toMetadata).insertionSort metaDesc

/-- Sample concrete snapshot over trivial node and app-state types,
used to instantiate general theorems. -/
def sampleSnap : Snapshot Unit Unit := ⟨(), []⟩

/-- Sample concrete manager state whose loading lock is held. -/
def sampleLoadingState : PMState Unit Unit :=
  ⟨some "c1", "Untitled Canvas", 3, true, false, none, none⟩

/-- Sample concrete manager state ready to save: truthy id, pending
snapshot, lock free, handler registered. -/
def sampleActiveState : PMState Unit Unit :=
  ⟨some "c1", "Untitled Canvas", 3, false, true, some sampleSnap, none⟩

/-- Sample store holding two records that share updatedAt = 5. -/
def dupStore : List (CanvasData Unit Unit) :=
  [⟨"a", "a", [], (), 1, 5⟩, ⟨"b", "b", [], (), 2, 5⟩]

/-- Auxiliary: as long as every further call comes strictly within one
window of the previous one, each sched event merely re-arms the timer:
no fn invocation happens and the pending due time tracks the latest
call. -/
theorem foldl_sched_chain (w : Nat) (ts : List Nat) :
    ∀ (t : Nat) (fs : List Nat),
      List.Chain' (fun a b => a ≤ b ∧ b < a + w) (t :: ts) →
      (ts.map DEvent.sched).foldl (dstep w)
          { pending := some (t + w), fires := fs } =
        { pending := some ((t :: ts).getLastD 0 + w), fires := fs } := by
  induction ts with
  | nil => intro t fs _; simp
  | cons t2 ts ih =>
    intro t fs h
    rw [List.chain'_cons] at h
    obtain ⟨⟨hle, hlt⟩, hch⟩ := h
    have hexp : expire t2 ({ pending := some (t + w), fires := fs } : DState) =
        { pending := some (t + w), fires := fs } := by
      simp only [expire]
      rw [if_neg (by omega)]
    simp only [List.map_cons, List.foldl_cons, dstep, hexp]
    simpa using ih t2 fs hch

/-- Claim C1: for every sequence of N >= 1 calls of the debounced
function in which each call occurs strictly within one window of the
previous call, the wrapped effect fn is invoked exactly once, and that
invocation occurs one window after the last call of the sequence. -/
theorem C1_debounce_trailing_edge (w : Nat) (ts : List Nat)
    (hne : ts ≠ [])
    (hchain : List.Chain' (fun a b => a ≤ b ∧ b < a + w) ts) :
    runDebounce w (ts.map DEvent.sched) = [ts.getLastD 0 + w] := by
  cases ts with
  | nil => exact absurd rfl hne
  | cons t rest =>
    unfold runDebounce
    have h0 : dstep w { pending := none, fires := [] } (.sched t) =
        { pending := some (t + w), fires := [] } := by
      simp [dstep, expire]
    simp only [List.map_cons, List.foldl_cons, h0]
    rw [foldl_sched_chain w rest t [] hchain]
    simp [drain]

/-- Witness for C1 at the concrete burst 0, 5, 9 with window 10: one
invocation, at time 19. -/
theorem C1_debounce_trailing_edge_witness :
    runDebounce 10 ([0, 5, 9].map DEvent.sched) = [19] :=
  C1_debounce_trailing_edge 10 [0, 5, 9] (by decide)
    (by norm_num [List.chain'_cons])

/-- Claim C4: a flush at time t cancels the pending timer and invokes fn
synchronously at t, in every coordinator state: the last invocation of the
run is at t, and exactly one invocation is added by the flush itself, both
when no timer is pending and when a still-pending (not yet due) timer is
cancelled. -/
theorem C4_flush_always_fires (w t : Nat) (s : DState) :
    (dstep w s (.flush t)).pending = none ∧
    ((dstep w s (.flush t)).fires).getLast? = some t ∧
    (dstep w s (.flush t)).fires = (expire t s).fires ++ [t] ∧
    (s.pending = none → (dstep w s (.flush t)).fires = s.fires ++ [t]) ∧
    (∀ p, s.pending = some p → t ≤ p →
      (dstep w s (.flush t)).fires = s.fires ++ [t]) := by
  obtain ⟨pending, fires⟩ := s
  refine ⟨rfl, ?_, rfl, ?_, ?_⟩
  · simp [dstep]
  · intro hp
    simp only at hp
    simp [dstep, expire, hp]
  · intro p hp hle
    simp only at hp
    simp [dstep, expire, hp, Nat.not_lt.mpr hle]

/-- Witness for C4 at a concrete state with a pending timer due at 7,
flushed at time 5: the timer is cancelled and fn runs once, at 5. -/
theorem C4_flush_always_fires_witness :
    (dstep 10 ⟨some 7, []⟩ (.flush 5)).pending = none ∧
    (dstep 10 ⟨some 7, []⟩ (.flush 5)).fires = [] ++ [5] :=
  ⟨(C4_flush_always_fires 10 5 ⟨some 7, []⟩).1,
   (C4_flush_always_fires 10 5 ⟨some 7, []⟩).2.2.2.2 7 rfl (by decide)⟩

/-- Claim C2: whenever the loading flag is set, onStateChange is a no-op:
the whole session state — pending snapshot and the debounce timer of
debouncedSave included — is returned unchanged, so no write can result
from the call. -/
theorem C2_onStateChange_noop_while_loading (now : Nat)
    (snap : Snapshot Node AppSt) (s : PMState Node AppSt)
    (h : s.isLoading = true) :
    onStateChange now snap s = s := by
  simp [onStateChange, h]

/-- Witness for C2 at a concrete loading state. -/
theorem C2_onStateChange_noop_while_loading_witness :
    onStateChange 7 sampleSnap sampleLoadingState = sampleLoadingState :=
  C2_onStateChange_noop_while_loading 7 sampleSnap sampleLoadingState rfl

/-- Claim C10: updateSnapshot overwrites currentSnapshot with the given
snapshot in every state, loading ones included; while the loading flag is
set, that overwrite is the only effect (the guard in onStateChange only
suppresses the save scheduling). -/
theorem C10_updateSnapshot_unconditional_overwrite (now : Nat)
    (snap : Snapshot Node AppSt) (s : PMState Node AppSt) :
    (updateSnapshot now snap s).currentSnapshot = some snap ∧
    (s.isLoading = true →
      updateSnapshot now snap s = { s with currentSnapshot := some snap }) := by
  constructor
  · unfold updateSnapshot onStateChange
    split
    · simp
    · split <;> simp
  · intro h
    simp [updateSnapshot, onStateChange, h]

/-- Witness for C10 at a concrete loading state: the restoration-echo
snapshot replaces the pending snapshot even though loading holds. -/
theorem C10_updateSnapshot_unconditional_overwrite_witness :
    (updateSnapshot 7 sampleSnap sampleLoadingState).currentSnapshot =
        some sampleSnap ∧
    updateSnapshot 7 sampleSnap sampleLoadingState =
      { sampleLoadingState with currentSnapshot := some sampleSnap } :=
  ⟨(C10_updateSnapshot_unconditional_overwrite 7 sampleSnap sampleLoadingState).1,
   (C10_updateSnapshot_unconditional_overwrite 7 sampleSnap sampleLoadingState).2
     rfl⟩

/-- Auxiliary: the save effect never mutates the manager session state,
whatever the guard and the write outcome do. -/
theorem save_state_eq (now : Nat) (wr : Except E Unit)
    (s : PMState Node AppSt) (store : List (CanvasData Node AppSt)) :
    (save now wr s store).state = s := by
  obtain ⟨cid, nm, cr, ld, oh, snap, sp⟩ := s
  cases cid <;> cases snap <;> cases wr <;>
    simp [save] <;> split <;> simp

/-- Auxiliary: when the guard passes, save hands storage the record built
from the session fields, stamped with the current time. -/
theorem save_wrote_of_canSave (now : Nat) (wr : Except E Unit)
    (s : PMState Node AppSt) (store : List (CanvasData Node AppSt))
    (hc : canSave s = true) :
    ∃ cid snap, s.canvasId = some cid ∧ s.currentSnapshot = some snap ∧
      (save now wr s store).wrote =
        some ⟨cid, s.canvasName, snap.nodes, snap.appState,
              s.createdAt, now⟩ := by
  obtain ⟨cid, nm, cr, ld, oh, snap, sp⟩ := s
  cases cid with
  | none => simp [canSave, truthy] at hc
  | some cid =>
    cases snap with
    | none => simp [canSave, truthy] at hc
    | some snap =>
      simp [canSave, truthy] at hc
      obtain ⟨hne, hld⟩ := hc
      refine ⟨cid, snap, rfl, rfl, ?_⟩
      cases wr <;> simp [save, hne, hld]

/-- Claim C3: the save effect issues a storage write only when the
session has a non-none active id, a non-none pending snapshot and the
loading flag is clear; when the guard fails, save returns with no write,
no state change, no store change and no handler call. -/
theorem C3_save_guard (now : Nat) (wr : Except E Unit)
    (s : PMState Node AppSt) (store : List (CanvasData Node AppSt)) :
    ((save now wr s store).wrote.isSome = true →
      s.canvasId.isSome = true ∧ s.currentSnapshot.isSome = true ∧
        s.isLoading = false) ∧
    (canSave s = false → save now wr s store = ⟨s, store, none, []⟩) := by
  obtain ⟨cid, nm, cr, ld, oh, snap, sp⟩ := s
  cases cid with
  | none => cases snap <;> simp [save, canSave, truthy]
  | some cid =>
    cases snap with
    | none => simp [save, canSave, truthy]
    | some snap =>
      cases ld <;> cases wr <;> by_cases he : cid.isEmpty <;>
        simp [save, canSave, truthy, he]

/-- Witness for C3 at a loading state with no pending snapshot: save is a
complete no-op there. -/
theorem C3_save_guard_witness :
    save 9 (Except.ok () : Except String Unit) sampleLoadingState
        ([] : List (CanvasData Unit Unit)) =
      ⟨sampleLoadingState, [], none, []⟩ :=
  (C3_save_guard 9 (Except.ok ()) sampleLoadingState []).2 (by decide)

/-- Claim C7: when the storage write rejects with e, save catches the
rejection locally and returns normally — the session state and the store
are untouched, and e reaches the error handler exactly when a save was
attempted and a handler is registered, being dropped otherwise; nothing
propagates to the caller of onStateChange. -/
theorem C7_save_error_handled (now : Nat) (e : E)
    (s : PMState Node AppSt) (store : List (CanvasData Node AppSt)) :
    (save now (.error e) s store).state = s ∧
    (save now (.error e) s store).store = store ∧
    (save now (.error e) s store).handlerCalls =
      (if canSave s && s.onSaveError then [e] else []) := by
  obtain ⟨cid, nm, cr, ld, oh, snap, sp⟩ := s
  cases cid with
  | none => cases snap <;> simp [save, canSave, truthy]
  | some cid =>
    cases snap with
    | none => simp [save, canSave, truthy]
    | some snap =>
      cases ld <;> cases oh <;> by_cases he : cid.isEmpty <;>
        simp [save, canSave, truthy, he]

/-- Claim C8: every record written by save carries the session createdAt
unchanged and updatedAt stamped with the write time, and save leaves
createdAt (indeed the whole session) untouched; hence two successive
writes from the same session carry one constant createdAt and
nondecreasing updatedAt. -/
theorem C8_createdAt_fixed_updatedAt_monotone (t1 t2 : Nat)
    (wr1 wr2 : Except E Unit) (s : PMState Node AppSt)
    (store : List (CanvasData Node AppSt))
    (hc : canSave s = true) (hle : t1 ≤ t2) :
    ∃ d1 d2,
      (save t1 wr1 s store).wrote = some d1 ∧
      (save t2 wr2 (save t1 wr1 s store).state
          (save t1 wr1 s store).store).wrote = some d2 ∧
      d1.createdAt = s.createdAt ∧ d2.createdAt = s.createdAt ∧
      d1.updatedAt = t1 ∧ d2.updatedAt = t2 ∧ d1.updatedAt ≤ d2.updatedAt ∧
      (save t1 wr1 s store).state.createdAt = s.createdAt := by
  obtain ⟨cid, snap, hcid, hsnap, hw1⟩ := save_wrote_of_canSave t1 wr1 s store hc
  have hs1 : (save t1 wr1 s store).state = s := save_state_eq t1 wr1 s store
  obtain ⟨cid2, snap2, hcid2, hsnap2, hw2⟩ :=
    save_wrote_of_canSave t2 wr2 (save t1 wr1 s store).state
      (save t1 wr1 s store).store (by rw [hs1]; exact hc)
  refine ⟨_, _, hw1, hw2, rfl, ?_, rfl, ?_, ?_, ?_⟩
  · rw [hs1]
  · rw [hs1]
  · rw [hs1]; exact hle
  · rw [hs1]

/-- Witness for C8: two successive saves at times 4 and 9 from a ready
session with createdAt = 3. -/
theorem C8_createdAt_fixed_updatedAt_monotone_witness :
    ∃ d1 d2,
      (save 4 (Except.ok () : Except String Unit) sampleActiveState
          []).wrote = some d1 ∧
      (save 9 (Except.ok () : Except String Unit)
          (save 4 (Except.ok () : Except String Unit) sampleActiveState
            []).state
          (save 4 (Except.ok () : Except String Unit) sampleActiveState
            []).store).wrote =
        some d2 ∧
      d1.createdAt = sampleActiveState.createdAt ∧
      d2.createdAt = sampleActiveState.createdAt ∧
      d1.updatedAt = 4 ∧ d2.updatedAt = 9 ∧ d1.updatedAt ≤ d2.updatedAt ∧
      (save 4 (Except.ok () : Except String Unit) sampleActiveState
          []).state.createdAt =
        sampleActiveState.createdAt :=
  C8_createdAt_fixed_updatedAt_monotone 4 9 (Except.ok ()) (Except.ok ())
    sampleActiveState [] (by decide) (by decide)

/-- Claim C5: when the storage read rejects, loadCanvas rethrows the
error to its caller and mutates none of the session fields: active id,
name, createdAt and the pending snapshot are exactly as before the
call. -/
theorem C5_load_error_atomic (resolveTime : Nat) (e : E)
    (s : PMState Node AppSt) :
    (loadCanvas resolveTime (.error e) s).result = .error e ∧
    (loadCanvas resolveTime (.error e) s).state.canvasId = s.canvasId ∧
    (loadCanvas resolveTime (.error e) s).state.canvasName = s.canvasName ∧
    (loadCanvas resolveTime (.error e) s).state.createdAt = s.createdAt ∧
    (loadCanvas resolveTime (.error e) s).state.currentSnapshot =
      s.currentSnapshot := by
  simp [loadCanvas]

/-- Claim C6: on every resolution of loadCanvas — success, not-found or
failure — the loading flag is still set at the moment of resolution and
its reset is scheduled for exactly settleDelay = 100 time units after
resolution, strictly later than the resolution itself; the scheduled
callback is what clears the flag. -/
theorem C6_loading_release_delayed (resolveTime : Nat)
    (outcome : Except E (Option (CanvasData Node AppSt)))
    (s : PMState Node AppSt) :
    (loadCanvas resolveTime outcome s).releaseAt =
        resolveTime + settleDelay ∧
    settleDelay = 100 ∧
    (loadCanvas resolveTime outcome s).state.isLoading = true ∧
    resolveTime < (loadCanvas resolveTime outcome s).releaseAt ∧
    (releaseLoading (loadCanvas resolveTime outcome s).state).isLoading =
      false := by
  rcases outcome with e | d
  · simp [loadCanvas, releaseLoading, settleDelay]
  · rcases d with _ | data <;>
      simp [loadCanvas, releaseLoading, settleDelay]

/-- Counterexample to C9 as stated: two stored records sharing
updatedAt = 5 yield a listing whose updatedAt column is not strictly
descending (strict descent is impossible under ties). -/
theorem C9_strict_desc_counterexample :
    ¬ List.Chain' (fun a b : CanvasMetadata => b.updatedAt < a.updatedAt)
        (listCanvases dupStore) := by
  have h : listCanvases dupStore =
      [⟨"a", "a", 1, 5⟩, ⟨"b", "b", 2, 5⟩] := rfl
  rw [h]
  simp [List.chain'_cons]

/-- Claim C9 (amended): listCanvases returns exactly the metadata
projections of the stored records — a permutation of them, with nodes and
appState omitted — sorted by updatedAt descending, non-strictly: ties in
updatedAt may appear in adjacent positions. -/
theorem C9_list_metadata_sorted_desc
    (store : List (CanvasData Node AppSt)) :
    List.Perm (listCanvases store) (store.map toMetadata) ∧
    List.Sorted metaDesc (listCanvases store) :=
  ⟨List.perm_insertionSort metaDesc _,
   List.sorted_insertionSort metaDesc _⟩
